import Mathlib

/-!
Verification of `smtp_proxy.py` (workspace-gmail-sender): a shallow
embedding of the SMTP-to-Gmail relay's sender policy, outbound gateway,
DATA handler, session dispatch, and process lifecycle, with theorems
settling the specification's claims.

Bytes are modelled as `List Nat` (each entry a value `< 256`), strings as
Lean `String`/`List Char`.
-/

namespace SmtpProxy

/-- `afterLast sep s` is the suffix of `s` after the last occurrence of
`sep`, and `s` itself when `sep` does not occur: the Lean rendering of
Python `s.split(sep)[-1]`. -/
def afterLast (sep : Char) : List Char → List Char
  | [] => []
  | c :: cs =>
    if sep ∈ c :: cs then
      (if c = sep ∧ sep ∉ cs then cs else afterLast sep cs)
    else c :: cs

/-- Python `str.lower` on the ASCII range, applied characterwise. -/
def lowerChars (s : List Char) : List Char := s.map Char.toLower

/-- Embedding of `GmailSMTPHandler._validate_sender` (smtp_proxy.py:60-66):
`if not self.allowed_domain: return True` then
`domain = sender_email.split('@')[-1].lower(); return domain == self.allowed_domain.lower()`. -/
def validate_sender (allowed_domain : Option String) (sender_email : String) : Bool :=
  match allowed_domain with
  | none => true
  | some d => lowerChars (afterLast '@' sender_email.data) == lowerChars d.data

theorem afterLast_append (sep : Char) (t : List Char) (ht : sep ∉ t) :
    ∀ p : List Char, afterLast sep (p ++ sep :: t) = t := by
  intro p
  induction p with
  | nil =>
    simp [afterLast, ht]
  | cons c cs ih =>
    have hmem : sep ∈ c :: (cs ++ sep :: t) := by
      simp
    have hmem' : sep ∈ cs ++ sep :: t := by
      simp
    have hcond : ¬(c = sep ∧ sep ∉ cs ++ sep :: t) := fun hcon => hcon.2 hmem'
    rw [List.cons_append, afterLast, if_pos hmem, if_neg hcond, ih]

theorem afterLast_of_not_mem (sep : Char) (s : List Char) (hs : sep ∉ s) :
    afterLast sep s = s := by
  cases s with
  | nil => rfl
  | cons c cs => simp [afterLast, hs]

/-- The standard base64 alphabet (RFC 4648 §4), used by Python
`base64.b64encode`. -/
def b64chars_std : List Char :=
  "ABCDEFGHIJKLMNOPQRSTUVWXYZabcdefghijklmnopqrstuvwxyz0123456789+/".data

/-- The URL-safe base64 alphabet (RFC 4648 §5). -/
def b64chars_url : List Char :=
  "ABCDEFGHIJKLMNOPQRSTUVWXYZabcdefghijklmnopqrstuvwxyz0123456789-_".data

/-- Look up a 6-bit group in a base64 alphabet. -/
def b64char (alphabet : List Char) (n : Nat) : Char := alphabet.getD n 'A'

/-- Base64-encode a byte sequence three bytes at a time with `=` padding,
over the given alphabet (RFC 4648 §4 core transformation). -/
def b64encodeChunks (alphabet : List Char) : List Nat → List Char
  | [] => []
  | [b0] =>
    [b64char alphabet (b0 / 4), b64char alphabet (b0 % 4 * 16), '=', '=']
  | [b0, b1] =>
    [b64char alphabet (b0 / 4), b64char alphabet (b0 % 4 * 16 + b1 / 16),
     b64char alphabet (b1 % 16 * 4), '=']
  | b0 :: b1 :: b2 :: rest =>
    b64char alphabet (b0 / 4) :: b64char alphabet (b0 % 4 * 16 + b1 / 16) ::
    b64char alphabet (b1 % 16 * 4 + b2 / 64) :: b64char alphabet (b2 % 64) ::
    b64encodeChunks alphabet rest

/-- Python `base64.urlsafe_b64encode` is `b64encode` followed by the
character translation `+ ↦ -`, `/ ↦ _`. -/
def urlsafeTranslate (c : Char) : Char :=
  if c = '+' then '-' else if c = '/' then '_' else c

/-- Embedding of `base64.urlsafe_b64encode(message_data).decode('utf-8')`
as executed at smtp_proxy.py:78: standard base64 then the URL-safe
character translation. -/
def urlsafe_b64encode (data : List Nat) : String :=
  ⟨(b64encodeChunks b64chars_std data).map urlsafeTranslate⟩

/-- The RFC 4648 §5 URL-safe base64 encoding, written directly over the
URL-safe alphabet: the specification-side description of the transport
encoding, to be compared with `urlsafe_b64encode` from the source. -/
def rfc4648_urlsafe_b64 (data : List Nat) : String :=
  ⟨b64encodeChunks b64chars_url data⟩

theorem urlsafeTranslate_b64char (n : Nat) :
    urlsafeTranslate (b64char b64chars_std n) = b64char b64chars_url n := by
  by_cases h : n < 64
  · interval_cases n <;> rfl
  · have h64 : 64 ≤ n := Nat.le_of_not_lt h
    have h1 : b64char b64chars_std n = 'A' := by
      unfold b64char
      apply List.getD_eq_default
      simpa [b64chars_std] using h64
    have h2 : b64char b64chars_url n = 'A' := by
      unfold b64char
      apply List.getD_eq_default
      simpa [b64chars_url] using h64
    rw [h1, h2]
    rfl

theorem urlsafeTranslate_pad : urlsafeTranslate '=' = '=' := rfl

theorem urlsafe_b64encode_eq_rfc4648 (data : List Nat) :
    urlsafe_b64encode data = rfc4648_urlsafe_b64 data := by
  unfold urlsafe_b64encode rfc4648_urlsafe_b64
  congr 1
  induction data using b64encodeChunks.induct b64chars_std with
  | case1 => rfl
  | case2 b0 =>
    simp [b64encodeChunks, urlsafeTranslate_b64char, urlsafeTranslate_pad]
  | case3 b0 b1 =>
    simp [b64encodeChunks, urlsafeTranslate_b64char, urlsafeTranslate_pad]
  | case4 b0 b1 b2 rest ih =>
    simp [b64encodeChunks, urlsafeTranslate_b64char, ih]

/-- The behaviour of the Gmail-side collaborators inside the `try` block of
`_send_via_gmail`: each fallible step either succeeds or raises an
exception carrying a message (`Except.error`).  `sendExec` takes the
`userId` and the `raw` body field and, on success, returns the `id` field
of the response dict (`none` when the response has no `id`). -/
structure GmailEnv where
  withSubject : String → Except String Unit
  buildService : Except String Unit
  sendExec : String → String → Except String (Option String)

/-- A record of one invocation of the upstream `send(...).execute()` call:
the `userId` argument and the `raw` payload transmitted in the body. -/
def SendAttempt : Type := String × String

/-- Embedding of `GmailSMTPHandler._send_via_gmail` (smtp_proxy.py:68-89).
First component: the returned pair `(success, result)` — `(True, id)` on
success with `result.get('id', 'unknown')`, `(False, str(e))` when any
step of the `try` block raises.  Second component: the list of upstream
send invocations performed (the call at lines 81-84 runs exactly when
delegation and service construction succeeded). -/
def send_via_gmail (env : GmailEnv) (sender : String) (recipients : List String)
    (message_data : List Nat) : (Bool × String) × List SendAttempt :=
  match env.withSubject sender with
  | .error e => ((false, e), [])
  | .ok _ =>
    match env.buildService with
    | .error e => ((false, e), [])
    | .ok _ =>
      let raw := urlsafe_b64encode message_data
      match env.sendExec sender raw with
      | .error e => ((false, e), [(sender, raw)])
      | .ok result => ((true, result.getD "unknown"), [(sender, raw)])

/-- The envelope fields consumed by `handle_DATA`: `mail_from`,
`rcpt_tos`, `content`. -/
structure MailEnvelope where
  mail_from : String
  rcpt_tos : List String
  content : List Nat

/-- A record of one invocation of the gateway `_send_via_gmail`: its
`(sender, recipients, message_data)` arguments. -/
def GatewayCall : Type := String × List String × List Nat

/-- Embedding of `GmailSMTPHandler.handle_DATA` (smtp_proxy.py:101-134).
Returns the SMTP reply line together with the list of gateway invocations
and the list of upstream send attempts those invocations performed.
(The `message_from_bytes` parse at lines 119-124 only feeds logging and is
wrapped in a bare `except: pass`, so it does not affect the reply.) -/
def handle_DATA (allowed_domain : Option String) (env : GmailEnv)
    (envelope : MailEnvelope) : String × List GatewayCall × List SendAttempt :=
  let sender := envelope.mail_from
  let recipients := envelope.rcpt_tos
  let message_data := envelope.content
  if ¬ validate_sender allowed_domain sender then
    ("550 Sender domain not allowed: " ++ sender, [], [])
  else
    let r := send_via_gmail env sender recipients message_data
    if r.1.1 then
      ("250 Message accepted for delivery", [(sender, recipients, message_data)], r.2)
    else
      ("550 Failed to send: " ++ r.1.2, [(sender, recipients, message_data)], r.2)

/-- Embedding of `GmailSMTPHandler.handle_RCPT` (smtp_proxy.py:96-99):
appends the address to `envelope.rcpt_tos` and replies `250 OK`. -/
def handle_RCPT (rcpt_tos : List String) (address : String) : List String × String :=
  (rcpt_tos ++ [address], "250 OK")

/-- Per-connection transaction state: the sender once `MAIL FROM` has been
accepted, and the accumulated recipient list. -/
structure SessionState where
  mail_from : Option String
  rcpt_tos : List String
deriving DecidableEq, Repr

/-- The state of a fresh connection / after a transaction reset. -/
def idleState : SessionState := { mail_from := none, rcpt_tos := [] }

/-- One inbound SMTP transaction command, with its extracted argument. -/
inductive Command where
  | mail (addr : String)
  | rcpt (addr : String)
  | data (content : List Nat)
  | rset
deriving DecidableEq, Repr

/-- The result of processing one command: the next session state, the
reply line sent to the client, the gateway invocations made and the
upstream send attempts performed while processing it. -/
structure StepResult where
  state : SessionState
  reply : String
  gatewayCalls : List GatewayCall
  sendAttempts : List SendAttempt

/-- Modelled from the spec: the SMTP session command dispatch (provided by
the `aiosmtpd` library, which is not part of the repository sources; only
the handler hooks above are).  Per §4.4 of the spec: `MAIL` is valid only
from `Idle`, sets the sender, clears prior recipients and replies
`250 OK`; `RCPT` is valid only after a sender is set and delegates to
`handle_RCPT`; `DATA` requires at least one accepted recipient — without
one it is rejected with a `5xx` reply, no gateway invocation, and the
transaction aborts back to `Idle` — and otherwise delegates the completed
envelope to `handle_DATA`, after which the transaction resets to `Idle`;
`RSET` clears the envelope and returns to `Idle` with `250 OK`. -/
def sessionStep (allowed_domain : Option String) (env : GmailEnv)
    (st : SessionState) : Command → StepResult
  | .mail addr =>
    match st.mail_from with
    | some _ => ⟨st, "503 Error: nested MAIL command", [], []⟩
    | none => ⟨{ mail_from := some addr, rcpt_tos := [] }, "250 OK", [], []⟩
  | .rcpt addr =>
    match st.mail_from with
    | none => ⟨st, "503 Error: need MAIL command", [], []⟩
    | some _ =>
      let r := handle_RCPT st.rcpt_tos addr
      ⟨{ st with rcpt_tos := r.1 }, r.2, [], []⟩
  | .data content =>
    match st.mail_from with
    | none => ⟨idleState, "503 Error: need MAIL command", [], []⟩
    | some sender =>
      if st.rcpt_tos = [] then
        ⟨idleState, "503 Error: need RCPT command", [], []⟩
      else
        let r := handle_DATA allowed_domain env ⟨sender, st.rcpt_tos, content⟩
        ⟨idleState, r.1, r.2.1, r.2.2⟩
  | .rset => ⟨idleState, "250 OK", [], []⟩

/-- Run a list of commands through the session, collecting every reply,
gateway invocation and upstream send attempt in order. -/
def runSession (allowed_domain : Option String) (env : GmailEnv)
    (st : SessionState) :
    List Command → SessionState × List String × List GatewayCall × List SendAttempt
  | [] => (st, [], [], [])
  | cmd :: rest =>
    let r := sessionStep allowed_domain env st cmd
    let rec' := runSession allowed_domain env r.state rest
    (rec'.1, r.reply :: rec'.2.1, r.gatewayCalls ++ rec'.2.2.1,
     r.sendAttempts ++ rec'.2.2.2)

/-- Process-level state observed by the `shutdown` signal handler
(smtp_proxy.py:177-189): the `shutdown_requested` flag, how many times
`controller.stop()` has been called, and whether `sys.exit` has been
invoked and with which status. -/
structure ServerState where
  shutdown_requested : Bool
  controller_stop_calls : Nat
  exit_code : Option Nat
deriving DecidableEq, Repr

/-- Embedding of the `shutdown` signal handler (smtp_proxy.py:179-186):
`if shutdown_requested: return`, else set the flag, call
`controller.stop()` once, and `sys.exit(0)`. -/
def shutdown (st : ServerState) : ServerState :=
  if st.shutdown_requested then st
  else
    { shutdown_requested := true,
      controller_stop_calls := st.controller_stop_calls + 1,
      exit_code := some 0 }

/-- Embedding of `GmailSMTPHandler._load_credentials` (smtp_proxy.py:48-57):
if the key file does not exist the process exits with status 1
(`sys.exit(1)`), otherwise the credentials are loaded and control
returns. -/
def load_credentials (key_file_exists : Bool) : Except Nat Unit :=
  if key_file_exists then .ok () else .error 1

/-- What `run_server` has done by the time the listener is up: whether the
process exited early and with which status, and whether
`controller.start()` was reached. -/
structure StartupOutcome where
  exit_code : Option Nat
  listener_started : Bool
deriving DecidableEq, Repr

/-- Embedding of the startup path of `run_server` (smtp_proxy.py:151-174):
the handler's constructor calls `_load_credentials` before the controller
is created and started, so a credential failure exits the process before
any listener exists. -/
def run_server_startup (key_file_exists : Bool) : StartupOutcome :=
  match load_credentials key_file_exists with
  | .error c => { exit_code := some c, listener_started := false }
  | .ok _ => { exit_code := none, listener_started := true }

/-- C2: for a sender address containing an '@' (written `p ++ '@' :: t`
with `t` the substring after the last '@'): with no restriction domain the
policy allows it; with restriction `d` it allows it iff `t` equals `d`
case-insensitively.  In particular, with restriction `example.com`,
`a@example.com` and `a@EXAMPLE.COM` are allowed and `a@other.com` is
rejected. -/
theorem claim_C2 (d s : String) (p t : List Char)
    (hs : s.data = p ++ '@' :: t) (ht : '@' ∉ t) :
    validate_sender none s = true ∧
    (validate_sender (some d) s = true ↔ lowerChars t = lowerChars d.data) ∧
    validate_sender (some "example.com") "a@example.com" = true ∧
    validate_sender (some "example.com") "a@EXAMPLE.COM" = true ∧
    validate_sender (some "example.com") "a@other.com" = false := by
  refine ⟨rfl, ?_, by decide, by decide, by decide⟩
  unfold validate_sender
  rw [hs, afterLast_append _ _ ht]
  exact ⟨fun h => by simpa using h, fun h => by simp [h]⟩

theorem claim_C2_witness :
    "a@EXAMPLE.COM".data = "a".data ++ '@' :: "EXAMPLE.COM".data ∧
    '@' ∉ "EXAMPLE.COM".data ∧
    (validate_sender none "a@EXAMPLE.COM" = true ∧
     (validate_sender (some "example.com") "a@EXAMPLE.COM" = true ↔
       lowerChars "EXAMPLE.COM".data = lowerChars "example.com".data) ∧
     validate_sender (some "example.com") "a@example.com" = true ∧
     validate_sender (some "example.com") "a@EXAMPLE.COM" = true ∧
     validate_sender (some "example.com") "a@other.com" = false) :=
  ⟨by decide, by decide,
   claim_C2 "example.com" "a@EXAMPLE.COM" "a".data "EXAMPLE.COM".data
     (by decide) (by decide)⟩

/-- C3 counterexample: the claim says every sender address without an '@'
is rejected under any configured restriction domain, but Python
`split('@')[-1]` on an '@'-free string is the whole string, so the sender
address `example.com` is *allowed* under restriction `example.com`. -/
theorem claim_C3_counterexample :
    '@' ∉ "example.com".data ∧
    validate_sender (some "example.com") "example.com" = true := by
  decide

/-- C3 (amended): a sender address with no '@' is compared whole against
the restriction domain — it is rejected unless the entire address equals
the configured domain case-insensitively. -/
theorem claim_C3 (d s : String) (h : '@' ∉ s.data) :
    validate_sender (some d) s = (lowerChars s.data == lowerChars d.data) := by
  unfold validate_sender
  rw [afterLast_of_not_mem _ _ h]

theorem claim_C3_witness :
    '@' ∉ "nodomain".data ∧
    validate_sender (some "example.com") "nodomain" =
      (lowerChars "nodomain".data == lowerChars "example.com".data) :=
  ⟨by decide, claim_C3 "example.com" "nodomain" (by decide)⟩

/-- C5: `handle_DATA` maps outcomes to replies: a policy-rejected sender
yields `550 Sender domain not allowed: <sender>` (the reply ends with the
offending address) with no gateway invocation; a gateway success yields
exactly `250 Message accepted for delivery`; a gateway failure with text
`t` yields exactly `550 Failed to send: <t>`. -/
theorem claim_C5 (allowed_domain : Option String) (env : GmailEnv)
    (envelope : MailEnvelope) :
    (validate_sender allowed_domain envelope.mail_from = false →
      (handle_DATA allowed_domain env envelope).1 =
        "550 Sender domain not allowed: " ++ envelope.mail_from ∧
      envelope.mail_from.data <:+ (handle_DATA allowed_domain env envelope).1.data ∧
      (handle_DATA allowed_domain env envelope).2.1 = []) ∧
    (validate_sender allowed_domain envelope.mail_from = true →
      ((send_via_gmail env envelope.mail_from envelope.rcpt_tos envelope.content).1.1 = true →
        (handle_DATA allowed_domain env envelope).1 = "250 Message accepted for delivery") ∧
      (∀ t, (send_via_gmail env envelope.mail_from envelope.rcpt_tos envelope.content).1 =
          (false, t) →
        (handle_DATA allowed_domain env envelope).1 = "550 Failed to send: " ++ t)) := by
  constructor
  · intro hval
    refine ⟨by simp [handle_DATA, hval], ?_, by simp [handle_DATA, hval]⟩
    have h : (handle_DATA allowed_domain env envelope).1 =
        "550 Sender domain not allowed: " ++ envelope.mail_from := by
      simp [handle_DATA, hval]
    rw [h, String.data_append]
    exact List.suffix_append _ _
  · intro hval
    constructor
    · intro hok
      simp [handle_DATA, hval, hok]
    · intro t hfail
      simp [handle_DATA, hval, hfail]

def okEnv : GmailEnv :=
  ⟨fun _ => .ok (), .ok (), fun _ _ => .ok (some "msg-1")⟩

def c5EnvFail : GmailEnv :=
  ⟨fun _ => .ok (), .ok (), fun _ _ => .error "quota"⟩

theorem claim_C5_witness :
    ((handle_DATA (some "example.com") okEnv ⟨"a@other.com", ["r@x.com"], []⟩).1 =
      "550 Sender domain not allowed: " ++ "a@other.com") ∧
    ((handle_DATA none okEnv ⟨"a@b.com", ["r@x.com"], []⟩).1 =
      "250 Message accepted for delivery") ∧
    ((handle_DATA none c5EnvFail ⟨"a@b.com", ["r@x.com"], []⟩).1 =
      "550 Failed to send: " ++ "quota") :=
  ⟨((claim_C5 (some "example.com") okEnv ⟨"a@other.com", ["r@x.com"], []⟩).1
      (by decide)).1,
   ((claim_C5 none okEnv ⟨"a@b.com", ["r@x.com"], []⟩).2 rfl).1 rfl,
   ((claim_C5 none c5EnvFail ⟨"a@b.com", ["r@x.com"], []⟩).2 rfl).2 "quota" rfl⟩

/-- C6: `_send_via_gmail` performs at most one upstream send attempt (no
retries), and every exception raised by delegation, service construction
or the send call is converted into a `(False, str(e))` result instead of
propagating: the function is total on every environment. -/
theorem claim_C6 (env : GmailEnv) (sender : String) (recipients : List String)
    (message_data : List Nat) :
    (send_via_gmail env sender recipients message_data).2.length ≤ 1 ∧
    (∀ e, env.withSubject sender = .error e →
      send_via_gmail env sender recipients message_data = ((false, e), [])) ∧
    (∀ e, env.withSubject sender = .ok () → env.buildService = .error e →
      send_via_gmail env sender recipients message_data = ((false, e), [])) ∧
    (∀ e, env.withSubject sender = .ok () → env.buildService = .ok () →
      env.sendExec sender (urlsafe_b64encode message_data) = .error e →
      send_via_gmail env sender recipients message_data =
        ((false, e), [(sender, urlsafe_b64encode message_data)])) := by
  refine ⟨?_, ?_, ?_, ?_⟩
  · cases h1 : env.withSubject sender with
    | error e => simp [send_via_gmail, h1]
    | ok u =>
      cases h2 : env.buildService with
      | error e => simp [send_via_gmail, h1, h2]
      | ok u2 =>
        cases h3 : env.sendExec sender (urlsafe_b64encode message_data) with
        | error e => simp [send_via_gmail, h1, h2, h3]
        | ok r => simp [send_via_gmail, h1, h2, h3]
  · intro e he
    simp [send_via_gmail, he]
  · intro e h1 h2
    simp [send_via_gmail, h1, h2]
  · intro e h1 h2 h3
    simp [send_via_gmail, h1, h2, h3]

def c6Env : GmailEnv :=
  ⟨fun _ => .error "delegation failed", .ok (), fun _ _ => .ok (some "x")⟩

theorem claim_C6_witness :
    (send_via_gmail c6Env "a@b.com" ["r@x.com"] []).2.length ≤ 1 ∧
    send_via_gmail c6Env "a@b.com" ["r@x.com"] [] =
      ((false, "delegation failed"), []) :=
  ⟨(claim_C6 c6Env "a@b.com" ["r@x.com"] []).1,
   (claim_C6 c6Env "a@b.com" ["r@x.com"] []).2.1 "delegation failed" rfl⟩

/-- C10: a successful upstream send whose response carries no `id` field
still yields `(True, 'unknown')` from the gateway (`result.get('id',
'unknown')`), and the session replies `250 Message accepted for
delivery` — success is never downgraded by a missing message id. -/
theorem claim_C10 (allowed_domain : Option String) (env : GmailEnv)
    (envelope : MailEnvelope)
    (hval : validate_sender allowed_domain envelope.mail_from = true)
    (h1 : env.withSubject envelope.mail_from = .ok ())
    (h2 : env.buildService = .ok ())
    (h3 : env.sendExec envelope.mail_from (urlsafe_b64encode envelope.content) =
      .ok none) :
    send_via_gmail env envelope.mail_from envelope.rcpt_tos envelope.content =
      ((true, "unknown"),
        [(envelope.mail_from, urlsafe_b64encode envelope.content)]) ∧
    (handle_DATA allowed_domain env envelope).1 =
      "250 Message accepted for delivery" := by
  have hs : send_via_gmail env envelope.mail_from envelope.rcpt_tos envelope.content =
      ((true, "unknown"),
        [(envelope.mail_from, urlsafe_b64encode envelope.content)]) := by
    simp [send_via_gmail, h1, h2, h3]
  exact ⟨hs, by simp [handle_DATA, hval, hs]⟩

def c10Env : GmailEnv :=
  ⟨fun _ => .ok (), .ok (), fun _ _ => .ok none⟩

theorem claim_C10_witness :
    send_via_gmail c10Env "a@b.com" ["r@x.com"] [] =
      ((true, "unknown"), [("a@b.com", urlsafe_b64encode [])]) ∧
    (handle_DATA none c10Env ⟨"a@b.com", ["r@x.com"], []⟩).1 =
      "250 Message accepted for delivery" :=
  claim_C10 none c10Env ⟨"a@b.com", ["r@x.com"], []⟩ rfl rfl rfl rfl

def c4Env : GmailEnv :=
  ⟨fun _ => .ok (), .ok (),
   fun _ _ => .error "invalid_grant: token ya29.SECRETCRED"⟩

/-- C4 counterexample: no stripping of authorization material happens
anywhere between `str(e)` and the reply line — with an upstream failure
whose text embeds raw credential material (`ya29.SECRETCRED`) next to
`invalid_grant`, the 550 reply contains that material verbatim, refuting
the claim that such material is stripped before crossing the SMTP reply
boundary. -/
theorem claim_C4_counterexample :
    (send_via_gmail c4Env "a@b.com" ["r@x.com"] []).1 =
      (false, "invalid_grant: token ya29.SECRETCRED") ∧
    (handle_DATA none c4Env ⟨"a@b.com", ["r@x.com"], []⟩).1 =
      "550 Failed to send: " ++ "invalid_grant: token ya29.SECRETCRED" ∧
    "ya29.SECRETCRED".data <:+:
      (handle_DATA none c4Env ⟨"a@b.com", ["r@x.com"], []⟩).1.data := by
  refine ⟨rfl, by simp [handle_DATA, send_via_gmail, c4Env, validate_sender], ?_⟩
  decide

/-- C4 (amended): on upstream failure the gateway returns the exception
text unchanged and the session echoes it verbatim — the reply is exactly
`550 Failed to send: <text>`, with the upstream text (credential material
included, if any) as a suffix; no sanitisation is performed. -/
theorem claim_C4 (allowed_domain : Option String) (env : GmailEnv)
    (envelope : MailEnvelope) (e : String)
    (hval : validate_sender allowed_domain envelope.mail_from = true)
    (hfail : (send_via_gmail env envelope.mail_from envelope.rcpt_tos
        envelope.content).1 = (false, e)) :
    (handle_DATA allowed_domain env envelope).1 = "550 Failed to send: " ++ e ∧
    e.data <:+ (handle_DATA allowed_domain env envelope).1.data := by
  have h : (handle_DATA allowed_domain env envelope).1 =
      "550 Failed to send: " ++ e := by
    simp [handle_DATA, hval, hfail]
  refine ⟨h, ?_⟩
  rw [h, String.data_append]
  exact List.suffix_append _ _

theorem claim_C4_witness :
    (handle_DATA none c4Env ⟨"a@b.com", ["r@x.com"], []⟩).1 =
      "550 Failed to send: " ++ "invalid_grant: token ya29.SECRETCRED" ∧
    "invalid_grant: token ya29.SECRETCRED".data <:+
      (handle_DATA none c4Env ⟨"a@b.com", ["r@x.com"], []⟩).1.data :=
  claim_C4 none c4Env ⟨"a@b.com", ["r@x.com"], []⟩
    "invalid_grant: token ya29.SECRETCRED" rfl rfl

theorem send_via_gmail_attempts (env : GmailEnv) (sender : String)
    (recipients : List String) (message_data : List Nat) :
    ∀ a ∈ (send_via_gmail env sender recipients message_data).2,
      a = (sender, urlsafe_b64encode message_data) := by
  cases h1 : env.withSubject sender with
  | error e => simp [send_via_gmail, h1]
  | ok u =>
    cases h2 : env.buildService with
    | error e => simp [send_via_gmail, h1, h2]
    | ok u2 =>
      cases h3 : env.sendExec sender (urlsafe_b64encode message_data) with
      | error e => simp [send_via_gmail, h1, h2, h3]
      | ok r => simp [send_via_gmail, h1, h2, h3]

theorem handle_DATA_invocations (allowed_domain : Option String) (env : GmailEnv)
    (envelope : MailEnvelope)
    (hval : validate_sender allowed_domain envelope.mail_from = true) :
    (handle_DATA allowed_domain env envelope).2 =
      ([(envelope.mail_from, envelope.rcpt_tos, envelope.content)],
       (send_via_gmail env envelope.mail_from envelope.rcpt_tos envelope.content).2) := by
  by_cases hb : (send_via_gmail env envelope.mail_from envelope.rcpt_tos
      envelope.content).1.1 = true
  · simp [handle_DATA, hval, hb]
  · simp [handle_DATA, hval, hb]

theorem runSession_append (d : Option String) (env : GmailEnv) (st : SessionState)
    (l1 l2 : List Command) :
    runSession d env st (l1 ++ l2) =
      ((runSession d env (runSession d env st l1).1 l2).1,
       (runSession d env st l1).2.1 ++
         (runSession d env (runSession d env st l1).1 l2).2.1,
       (runSession d env st l1).2.2.1 ++
         (runSession d env (runSession d env st l1).1 l2).2.2.1,
       (runSession d env st l1).2.2.2 ++
         (runSession d env (runSession d env st l1).1 l2).2.2.2) := by
  induction l1 generalizing st with
  | nil => simp [runSession]
  | cons c cs ih =>
    simp [runSession, ih (sessionStep d env st c).state, List.append_assoc]

theorem runSession_rcpts (d : Option String) (env : GmailEnv) (sender : String)
    (acc rcpts : List String) :
    runSession d env ⟨some sender, acc⟩ (rcpts.map Command.rcpt) =
      (⟨some sender, acc ++ rcpts⟩, rcpts.map (fun _ => "250 OK"), [], []) := by
  induction rcpts generalizing acc with
  | nil => simp [runSession]
  | cons r rs ih =>
    simp [runSession, sessionStep, handle_RCPT, ih (acc ++ [r])]

/-- C1: for a completed transaction `MAIL FROM → RCPT TO (≥ 1) → DATA`
with an allowed sender, the gateway `_send_via_gmail` is invoked exactly
once, with exactly the sender set by MAIL FROM, the recipient list in
insertion order, and the raw bytes accumulated by DATA; and every
upstream send attempt transmits as its payload the RFC 4648 URL-safe
base64 encoding of exactly those bytes. -/
theorem claim_C1 (d : Option String) (env : GmailEnv) (sender : String)
    (rcpts : List String) (content : List Nat)
    (hne : rcpts ≠ [])
    (hval : validate_sender d sender = true) :
    (runSession d env idleState
        (Command.mail sender :: (rcpts.map Command.rcpt ++ [Command.data content]))).2.2.1 =
      [(sender, rcpts, content)] ∧
    ∀ a ∈ (runSession d env idleState
        (Command.mail sender :: (rcpts.map Command.rcpt ++ [Command.data content]))).2.2.2,
      a = (sender, rfc4648_urlsafe_b64 content) := by
  have hmail : sessionStep d env idleState (Command.mail sender) =
      ⟨⟨some sender, []⟩, "250 OK", [], []⟩ := rfl
  have hdata : runSession d env ⟨some sender, rcpts⟩ [Command.data content] =
      (idleState, [(handle_DATA d env ⟨sender, rcpts, content⟩).1],
       (handle_DATA d env ⟨sender, rcpts, content⟩).2.1,
       (handle_DATA d env ⟨sender, rcpts, content⟩).2.2) := by
    simp [runSession, sessionStep, hne]
  have hinv := handle_DATA_invocations d env ⟨sender, rcpts, content⟩ hval
  have hrun : runSession d env idleState
      (Command.mail sender :: (rcpts.map Command.rcpt ++ [Command.data content])) =
      (idleState,
       "250 OK" :: (rcpts.map (fun _ => "250 OK") ++
         [(handle_DATA d env ⟨sender, rcpts, content⟩).1]),
       [(sender, rcpts, content)],
       (send_via_gmail env sender rcpts content).2) := by
    simp only [runSession, hmail]
    rw [runSession_append d env ⟨some sender, []⟩ (rcpts.map Command.rcpt)
        [Command.data content]]
    rw [runSession_rcpts d env sender [] rcpts]
    simp [hdata, hinv]
  rw [hrun]
  refine ⟨rfl, ?_⟩
  intro a ha
  rw [← urlsafe_b64encode_eq_rfc4648]
  exact send_via_gmail_attempts env sender rcpts content a ha

theorem claim_C1_witness :
    ("r@x.com" :: [] ≠ ([] : List String)) ∧
    validate_sender none "u@d.com" = true ∧
    ((runSession none okEnv idleState
        (Command.mail "u@d.com" ::
          (["r@x.com"].map Command.rcpt ++ [Command.data [72, 105]]))).2.2.1 =
      [("u@d.com", ["r@x.com"], [72, 105])] ∧
    ∀ a ∈ (runSession none okEnv idleState
        (Command.mail "u@d.com" ::
          (["r@x.com"].map Command.rcpt ++ [Command.data [72, 105]]))).2.2.2,
      a = ("u@d.com", rfc4648_urlsafe_b64 [72, 105])) :=
  ⟨by decide, rfl,
   claim_C1 none okEnv "u@d.com" ["r@x.com"] [72, 105] (by decide) rfl⟩

/-- C7: a `DATA` command issued while no recipient has been accepted is
answered with a `5xx` reply, invokes the gateway on nothing, performs no
upstream send attempt, and leaves the transaction in the `Idle` state. -/
theorem claim_C7 (d : Option String) (env : GmailEnv) (st : SessionState)
    (content : List Nat) (h : st.rcpt_tos = []) :
    (sessionStep d env st (Command.data content)).state = idleState ∧
    (sessionStep d env st (Command.data content)).reply.data.head? = some '5' ∧
    (sessionStep d env st (Command.data content)).gatewayCalls = [] ∧
    (sessionStep d env st (Command.data content)).sendAttempts = [] := by
  cases hm : st.mail_from with
  | none =>
    have hstep : sessionStep d env st (Command.data content) =
        ⟨idleState, "503 Error: need MAIL command", [], []⟩ := by
      simp [sessionStep, hm]
    rw [hstep]
    exact ⟨rfl, by decide, rfl, rfl⟩
  | some s =>
    have hstep : sessionStep d env st (Command.data content) =
        ⟨idleState, "503 Error: need RCPT command", [], []⟩ := by
      simp [sessionStep, hm, h]
    rw [hstep]
    exact ⟨rfl, by decide, rfl, rfl⟩

theorem claim_C7_witness :
    (SessionState.mk (some "u@d.com") []).rcpt_tos = [] ∧
    ((sessionStep none okEnv ⟨some "u@d.com", []⟩ (Command.data [72])).state =
      idleState ∧
    (sessionStep none okEnv ⟨some "u@d.com", []⟩
        (Command.data [72])).reply.data.head? = some '5' ∧
    (sessionStep none okEnv ⟨some "u@d.com", []⟩
        (Command.data [72])).gatewayCalls = [] ∧
    (sessionStep none okEnv ⟨some "u@d.com", []⟩
        (Command.data [72])).sendAttempts = []) :=
  ⟨rfl, claim_C7 none okEnv ⟨some "u@d.com", []⟩ [72] rfl⟩

/-- C8: the `shutdown` signal handler is idempotent — a second invocation
while shutdown is already in progress is a no-op (it returns the state
unchanged, so `controller.stop()` is not called twice), and two successive
invocations produce exactly the terminal state of one. -/
theorem claim_C8 (st : ServerState) :
    (st.shutdown_requested = true → shutdown st = st) ∧
    shutdown (shutdown st) = shutdown st := by
  constructor
  · intro h
    simp [shutdown, h]
  · by_cases h : st.shutdown_requested <;> simp [shutdown, h]

theorem claim_C8_witness :
    (shutdown ⟨true, 1, some 0⟩ = ⟨true, 1, some 0⟩) ∧
    shutdown (shutdown ⟨false, 0, none⟩) = shutdown ⟨false, 0, none⟩ :=
  ⟨(claim_C8 ⟨true, 1, some 0⟩).1 rfl, (claim_C8 ⟨false, 0, none⟩).2⟩

/-- C9: a missing credential file halts startup with exit status 1 before
the listener is started, and a signal-driven graceful shutdown exits the
process with status 0. -/
theorem claim_C9 :
    run_server_startup false =
      { exit_code := some 1, listener_started := false } ∧
    (∀ st : ServerState, st.shutdown_requested = false →
      (shutdown st).exit_code = some 0) := by
  refine ⟨rfl, ?_⟩
  intro st h
  simp [shutdown, h]

theorem claim_C9_witness :
    run_server_startup false =
      { exit_code := some 1, listener_started := false } ∧
    (shutdown ⟨false, 0, none⟩).exit_code = some 0 :=
  ⟨claim_C9.1, claim_C9.2 ⟨false, 0, none⟩ rfl⟩
end SmtpProxy
